import Mathlib

/-!
Verification of the incremental JSON text generator (json_generator.c).

The generator is shallowly embedded: the C struct json_gen_str_t becomes a
Lean structure whose `buf` field holds the committed characters (the C
`free_ptr` is the implicit position `buf + total_len`), heap allocation is
modelled by an oracle `alloc : Nat → Bool` telling for each requested block
size whether the (re)allocation succeeds, and every C function returning
`int` becomes a Lean function returning the code `0` or `-1` together with
the updated state.
-/

namespace JsonGenerator

/-- Fixed slack added on every reallocation (MEM_CHUNK_SIZE in the source),
also the initial allocation size. -/
def MEM_CHUNK_SIZE : Nat := 250

/-- Size of the fixed stack buffer used for integer formatting. -/
def MAX_INT_IN_STR : Nat := 24

/-- Size of the fixed stack buffer used for float formatting. -/
def MAX_FLOAT_IN_STR : Nat := 30

/-- The generator state (json_gen_str_t). `buf` holds the committed
characters, so the C field `free_ptr` is represented implicitly as
`buf + total_len`; `flush_cb` records whether a flush callback was
registered at initialization, `priv` the opaque context value passed to it. -/
structure json_gen_str_t where
  buf : String
  buf_size : Nat
  total_len : Nat
  comma_req : Bool
  flush_cb : Bool
  priv : Nat
deriving DecidableEq, Repr

/-- Append one fragment to the buffer (json_gen_add_to_str), growing it by
reallocation when `total_len + len + 1` exceeds `buf_size`. `alloc n`
decides whether a (re)allocation of `n` bytes succeeds; a successful
reallocation copies the committed bytes, which the model expresses by
keeping `buf` and changing only `buf_size`. A `none` fragment models a NULL
`const char *` and is a successful no-op, as in the source. -/
def json_gen_add_to_str (alloc : Nat → Bool) (jstr : json_gen_str_t)
    (str : Option String) : Int × json_gen_str_t :=
  match str with
  | none => (0, jstr)
  | some s =>
    let len := s.length
    let required_len := jstr.total_len + len + 1
    if jstr.buf_size < required_len then
      let new_size := required_len + MEM_CHUNK_SIZE
      if alloc new_size then
        (0, { jstr with buf := jstr.buf ++ s, buf_size := new_size,
                        total_len := jstr.total_len + len })
      else
        (-1, jstr)
    else
      (0, { jstr with buf := jstr.buf ++ s, total_len := jstr.total_len + len })

/-- Initialize the state (json_gen_str_start): zero every field, allocate
the initial MEM_CHUNK_SIZE-byte buffer, record the callback and context. -/
def json_gen_str_start (flush_cb : Bool) (priv : Nat) : json_gen_str_t :=
  { buf := "", buf_size := MEM_CHUNK_SIZE, total_len := 0, comma_req := false,
    flush_cb := flush_cb, priv := priv }

/-- Finalize (json_gen_str_end): write the terminating NUL at index
`total_len` (within
capacity by the length invariant; the committed content `buf` is unaffected,
and a C reader of the buffer sees exactly `buf`), invoke the flush callback
if one was registered, and return `total_len + 1`. The third component
records the single callback invocation: the buffer contents and the context
value it receives, or `none` when no callback was registered. -/
def json_gen_str_end (jstr : json_gen_str_t) :
    Nat × json_gen_str_t × Option (String × Nat) :=
  (jstr.total_len + 1, jstr,
    if jstr.flush_cb then some (jstr.buf, jstr.priv) else none)

/-- Return the buffer (json_gen_get_json_string). -/
def json_gen_get_json_string (jstr : json_gen_str_t) : String :=
  jstr.buf

/-- Append a comma when a separator is due (json_gen_handle_comma). The
source returns void and discards the return code of the append. -/
def json_gen_handle_comma (alloc : Nat → Bool) (jstr : json_gen_str_t) :
    json_gen_str_t :=
  if jstr.comma_req then (json_gen_add_to_str alloc jstr (some ",")).2 else jstr

/-- Append a quoted key and a colon (json_gen_handle_name). The source
discards the codes of the first two appends and returns the code of the
third. -/
def json_gen_handle_name (alloc : Nat → Bool) (jstr : json_gen_str_t)
    (name : String) : Int × json_gen_str_t :=
  let jstr := (json_gen_add_to_str alloc jstr (some "\"")).2
  let jstr := (json_gen_add_to_str alloc jstr (some name)).2
  json_gen_add_to_str alloc jstr (some "\":")

/-- Open an object (json_gen_start_object). -/
def json_gen_start_object (alloc : Nat → Bool) (jstr : json_gen_str_t) :
    Int × json_gen_str_t :=
  let jstr := json_gen_handle_comma alloc jstr
  let jstr := { jstr with comma_req := false }
  json_gen_add_to_str alloc jstr (some "\x7b")

/-- Close an object (json_gen_end_object). -/
def json_gen_end_object (alloc : Nat → Bool) (jstr : json_gen_str_t) :
    Int × json_gen_str_t :=
  let jstr := { jstr with comma_req := true }
  json_gen_add_to_str alloc jstr (some "\x7d")

/-- Open an array (json_gen_start_array). -/
def json_gen_start_array (alloc : Nat → Bool) (jstr : json_gen_str_t) :
    Int × json_gen_str_t :=
  let jstr := json_gen_handle_comma alloc jstr
  let jstr := { jstr with comma_req := false }
  json_gen_add_to_str alloc jstr (some "[")

/-- Close an array (json_gen_end_array). -/
def json_gen_end_array (alloc : Nat → Bool) (jstr : json_gen_str_t) :
    Int × json_gen_str_t :=
  let jstr := { jstr with comma_req := true }
  json_gen_add_to_str alloc jstr (some "]")

/-- Open an object as a named member (json_gen_push_object). The code of
json_gen_handle_name is discarded by the source. -/
def json_gen_push_object (alloc : Nat → Bool) (jstr : json_gen_str_t)
    (name : String) : Int × json_gen_str_t :=
  let jstr := json_gen_handle_comma alloc jstr
  let jstr := (json_gen_handle_name alloc jstr name).2
  let jstr := { jstr with comma_req := false }
  json_gen_add_to_str alloc jstr (some "\x7b")

/-- Close a named-member object (json_gen_pop_object). -/
def json_gen_pop_object (alloc : Nat → Bool) (jstr : json_gen_str_t) :
    Int × json_gen_str_t :=
  let jstr := { jstr with comma_req := true }
  json_gen_add_to_str alloc jstr (some "\x7d")

/-- Splice a pre-rendered object verbatim as a named member
(json_gen_push_object_str). -/
def json_gen_push_object_str (alloc : Nat → Bool) (jstr : json_gen_str_t)
    (name object_str : String) : Int × json_gen_str_t :=
  let jstr := json_gen_handle_comma alloc jstr
  let jstr := (json_gen_handle_name alloc jstr name).2
  let jstr := { jstr with comma_req := true }
  json_gen_add_to_str alloc jstr (some object_str)

/-- Open an array as a named member (json_gen_push_array). -/
def json_gen_push_array (alloc : Nat → Bool) (jstr : json_gen_str_t)
    (name : String) : Int × json_gen_str_t :=
  let jstr := json_gen_handle_comma alloc jstr
  let jstr := (json_gen_handle_name alloc jstr name).2
  let jstr := { jstr with comma_req := false }
  json_gen_add_to_str alloc jstr (some "[")

/-- Close a named-member array (json_gen_pop_array). -/
def json_gen_pop_array (alloc : Nat → Bool) (jstr : json_gen_str_t) :
    Int × json_gen_str_t :=
  let jstr := { jstr with comma_req := true }
  json_gen_add_to_str alloc jstr (some "]")

/-- Splice a pre-rendered array verbatim as a named member
(json_gen_push_array_str). -/
def json_gen_push_array_str (alloc : Nat → Bool) (jstr : json_gen_str_t)
    (name array_str : String) : Int × json_gen_str_t :=
  let jstr := json_gen_handle_comma alloc jstr
  let jstr := (json_gen_handle_name alloc jstr name).2
  let jstr := { jstr with comma_req := true }
  json_gen_add_to_str alloc jstr (some array_str)

/-- Shared boolean encoder (static json_gen_set_bool). -/
def json_gen_set_bool (alloc : Nat → Bool) (jstr : json_gen_str_t)
    (val : Bool) : Int × json_gen_str_t :=
  let jstr := { jstr with comma_req := true }
  if val then
    json_gen_add_to_str alloc jstr (some "true")
  else
    json_gen_add_to_str alloc jstr (some "false")

/-- Named-member boolean (json_gen_obj_set_bool). -/
def json_gen_obj_set_bool (alloc : Nat → Bool) (jstr : json_gen_str_t)
    (name : String) (val : Bool) : Int × json_gen_str_t :=
  let jstr := json_gen_handle_comma alloc jstr
  let jstr := (json_gen_handle_name alloc jstr name).2
  json_gen_set_bool alloc jstr val

/-- Array-element boolean (json_gen_arr_set_bool). -/
def json_gen_arr_set_bool (alloc : Nat → Bool) (jstr : json_gen_str_t)
    (val : Bool) : Int × json_gen_str_t :=
  let jstr := json_gen_handle_comma alloc jstr
  json_gen_set_bool alloc jstr val

/-- snprintf into a fixed buffer of `n` bytes keeps at most `n - 1`
characters of the rendered text (one byte is reserved for the NUL). -/
def snprintf_trunc (n : Nat) (s : String) : String :=
  s.take (n - 1)

/-- Decimal text produced by snprintf with format %d into the 24-byte stack
buffer of json_gen_set_int. Every representable C int renders in well under
23 characters, so the truncation is never reached for such values. -/
def format_int (val : Int) : String :=
  snprintf_trunc MAX_INT_IN_STR (toString val)

/-- Decimal text produced by snprintf with format %ld (64-bit long on the
reference platform) into the 24-byte stack buffer of json_gen_set_int64: at
most 20 characters for any int64 value, below the 23-character truncation
bound. -/
def format_int64 (val : Int) : String :=
  snprintf_trunc MAX_INT_IN_STR (toString val)

/-- Shared integer encoder (static json_gen_set_int). -/
def json_gen_set_int (alloc : Nat → Bool) (jstr : json_gen_str_t)
    (val : Int) : Int × json_gen_str_t :=
  let jstr := { jstr with comma_req := true }
  json_gen_add_to_str alloc jstr (some (format_int val))

/-- Named-member integer (json_gen_obj_set_int). -/
def json_gen_obj_set_int (alloc : Nat → Bool) (jstr : json_gen_str_t)
    (name : String) (val : Int) : Int × json_gen_str_t :=
  let jstr := json_gen_handle_comma alloc jstr
  let jstr := (json_gen_handle_name alloc jstr name).2
  json_gen_set_int alloc jstr val

/-- Array-element integer (json_gen_arr_set_int). -/
def json_gen_arr_set_int (alloc : Nat → Bool) (jstr : json_gen_str_t)
    (val : Int) : Int × json_gen_str_t :=
  let jstr := json_gen_handle_comma alloc jstr
  json_gen_set_int alloc jstr val

/-- Shared 64-bit integer encoder (static json_gen_set_int64). -/
def json_gen_set_int64 (alloc : Nat → Bool) (jstr : json_gen_str_t)
    (val : Int) : Int × json_gen_str_t :=
  let jstr := { jstr with comma_req := true }
  json_gen_add_to_str alloc jstr (some (format_int64 val))

/-- Named-member 64-bit integer (json_gen_obj_set_int64). -/
def json_gen_obj_set_int64 (alloc : Nat → Bool) (jstr : json_gen_str_t)
    (name : String) (val : Int) : Int × json_gen_str_t :=
  let jstr := json_gen_handle_comma alloc jstr
  let jstr := (json_gen_handle_name alloc jstr name).2
  json_gen_set_int64 alloc jstr val

/-- Array-element 64-bit integer (json_gen_arr_set_int64). -/
def json_gen_arr_set_int64 (alloc : Nat → Bool) (jstr : json_gen_str_t)
    (val : Int) : Int × json_gen_str_t :=
  let jstr := json_gen_handle_comma alloc jstr
  json_gen_set_int64 alloc jstr val

/-- Shared float encoder (static json_gen_set_float). The source renders the float
argument with snprintf format %.*f at JSON_FLOAT_PRECISION into a 30-byte
buffer; floating-point decimal rendering has no shallow embedding here, so
the already-rendered text is taken as the argument `val_str`. No claim in
scope depends on the digits produced for a float, only on the buffer and
separator behaviour, which is independent of the rendered text. -/
def json_gen_set_float (alloc : Nat → Bool) (jstr : json_gen_str_t)
    (val_str : String) : Int × json_gen_str_t :=
  let jstr := { jstr with comma_req := true }
  json_gen_add_to_str alloc jstr (some (snprintf_trunc MAX_FLOAT_IN_STR val_str))

/-- Named-member float (json_gen_obj_set_float). -/
def json_gen_obj_set_float (alloc : Nat → Bool) (jstr : json_gen_str_t)
    (name : String) (val_str : String) : Int × json_gen_str_t :=
  let jstr := json_gen_handle_comma alloc jstr
  let jstr := (json_gen_handle_name alloc jstr name).2
  json_gen_set_float alloc jstr val_str

/-- Array-element float (json_gen_arr_set_float). -/
def json_gen_arr_set_float (alloc : Nat → Bool) (jstr : json_gen_str_t)
    (val_str : String) : Int × json_gen_str_t :=
  let jstr := json_gen_handle_comma alloc jstr
  json_gen_set_float alloc jstr val_str

/-- Shared string encoder (static json_gen_set_string): quote, content
verbatim, quote. The source discards the codes of the first two appends and
returns the code of the closing quote. -/
def json_gen_set_string (alloc : Nat → Bool) (jstr : json_gen_str_t)
    (val : String) : Int × json_gen_str_t :=
  let jstr := { jstr with comma_req := true }
  let jstr := (json_gen_add_to_str alloc jstr (some "\"")).2
  let jstr := (json_gen_add_to_str alloc jstr (some val)).2
  json_gen_add_to_str alloc jstr (some "\"")

/-- Named-member string (json_gen_obj_set_string). -/
def json_gen_obj_set_string (alloc : Nat → Bool) (jstr : json_gen_str_t)
    (name val : String) : Int × json_gen_str_t :=
  let jstr := json_gen_handle_comma alloc jstr
  let jstr := (json_gen_handle_name alloc jstr name).2
  json_gen_set_string alloc jstr val

/-- Array-element string (json_gen_arr_set_string). -/
def json_gen_arr_set_string (alloc : Nat → Bool) (jstr : json_gen_str_t)
    (val : String) : Int × json_gen_str_t :=
  let jstr := json_gen_handle_comma alloc jstr
  json_gen_set_string alloc jstr val

/-- Shared long-string opener (static json_gen_set_long_string): opening
quote and first fragment; the code of the quote append is discarded. -/
def json_gen_set_long_string (alloc : Nat → Bool) (jstr : json_gen_str_t)
    (val : String) : Int × json_gen_str_t :=
  let jstr := { jstr with comma_req := true }
  let jstr := (json_gen_add_to_str alloc jstr (some "\"")).2
  json_gen_add_to_str alloc jstr (some val)

/-- Named-member long-string begin (json_gen_obj_start_long_string). -/
def json_gen_obj_start_long_string (alloc : Nat → Bool) (jstr : json_gen_str_t)
    (name val : String) : Int × json_gen_str_t :=
  let jstr := json_gen_handle_comma alloc jstr
  let jstr := (json_gen_handle_name alloc jstr name).2
  json_gen_set_long_string alloc jstr val

/-- Array-element long-string begin (json_gen_arr_start_long_string). -/
def json_gen_arr_start_long_string (alloc : Nat → Bool) (jstr : json_gen_str_t)
    (val : String) : Int × json_gen_str_t :=
  let jstr := json_gen_handle_comma alloc jstr
  json_gen_set_long_string alloc jstr val

/-- Append a further long-string chunk (json_gen_add_to_long_string). -/
def json_gen_add_to_long_string (alloc : Nat → Bool) (jstr : json_gen_str_t)
    (val : String) : Int × json_gen_str_t :=
  json_gen_add_to_str alloc jstr (some val)

/-- Close a long string (json_gen_end_long_string). -/
def json_gen_end_long_string (alloc : Nat → Bool) (jstr : json_gen_str_t) :
    Int × json_gen_str_t :=
  json_gen_add_to_str alloc jstr (some "\"")

/-- Shared null encoder (static json_gen_set_null). -/
def json_gen_set_null (alloc : Nat → Bool) (jstr : json_gen_str_t) :
    Int × json_gen_str_t :=
  let jstr := { jstr with comma_req := true }
  json_gen_add_to_str alloc jstr (some "null")

/-- Named-member null (json_gen_obj_set_null). -/
def json_gen_obj_set_null (alloc : Nat → Bool) (jstr : json_gen_str_t)
    (name : String) : Int × json_gen_str_t :=
  let jstr := json_gen_handle_comma alloc jstr
  let jstr := (json_gen_handle_name alloc jstr name).2
  json_gen_set_null alloc jstr

/-- Array-element null (json_gen_arr_set_null). -/
def json_gen_arr_set_null (alloc : Nat → Bool) (jstr : json_gen_str_t) :
    Int × json_gen_str_t :=
  let jstr := json_gen_handle_comma alloc jstr
  json_gen_set_null alloc jstr

/-- Allocation oracle under which every (re)allocation succeeds. -/
def allocAlways : Nat → Bool := fun _ => true

/-- Allocation oracle under which every (re)allocation fails. -/
def allocNever : Nat → Bool := fun _ => false

/-- One mutating operation of the public API, with its arguments. Float
values carry their pre-rendered decimal text, see json_gen_set_float. -/
inductive GenOp where
  | startObject
  | endObject
  | startArray
  | endArray
  | pushObject (name : String)
  | popObject
  | pushObjectStr (name object_str : String)
  | pushArray (name : String)
  | popArray
  | pushArrayStr (name array_str : String)
  | objSetBool (name : String) (val : Bool)
  | arrSetBool (val : Bool)
  | objSetInt (name : String) (val : Int)
  | arrSetInt (val : Int)
  | objSetInt64 (name : String) (val : Int)
  | arrSetInt64 (val : Int)
  | objSetFloat (name : String) (val_str : String)
  | arrSetFloat (val_str : String)
  | objSetString (name val : String)
  | arrSetString (val : String)
  | objSetNull (name : String)
  | arrSetNull
  | objStartLongString (name val : String)
  | arrStartLongString (val : String)
  | addToLongString (val : String)
  | endLongString
deriving DecidableEq, Repr

/-- Dispatch one public operation to its implementation. -/
def runOp (alloc : Nat → Bool) (jstr : json_gen_str_t) :
    GenOp → Int × json_gen_str_t
  | .startObject => json_gen_start_object alloc jstr
  | .endObject => json_gen_end_object alloc jstr
  | .startArray => json_gen_start_array alloc jstr
  | .endArray => json_gen_end_array alloc jstr
  | .pushObject name => json_gen_push_object alloc jstr name
  | .popObject => json_gen_pop_object alloc jstr
  | .pushObjectStr name object_str =>
      json_gen_push_object_str alloc jstr name object_str
  | .pushArray name => json_gen_push_array alloc jstr name
  | .popArray => json_gen_pop_array alloc jstr
  | .pushArrayStr name array_str =>
      json_gen_push_array_str alloc jstr name array_str
  | .objSetBool name val => json_gen_obj_set_bool alloc jstr name val
  | .arrSetBool val => json_gen_arr_set_bool alloc jstr val
  | .objSetInt name val => json_gen_obj_set_int alloc jstr name val
  | .arrSetInt val => json_gen_arr_set_int alloc jstr val
  | .objSetInt64 name val => json_gen_obj_set_int64 alloc jstr name val
  | .arrSetInt64 val => json_gen_arr_set_int64 alloc jstr val
  | .objSetFloat name val_str => json_gen_obj_set_float alloc jstr name val_str
  | .arrSetFloat val_str => json_gen_arr_set_float alloc jstr val_str
  | .objSetString name val => json_gen_obj_set_string alloc jstr name val
  | .arrSetString val => json_gen_arr_set_string alloc jstr val
  | .objSetNull name => json_gen_obj_set_null alloc jstr name
  | .arrSetNull => json_gen_arr_set_null alloc jstr
  | .objStartLongString name val =>
      json_gen_obj_start_long_string alloc jstr name val
  | .arrStartLongString val => json_gen_arr_start_long_string alloc jstr val
  | .addToLongString val => json_gen_add_to_long_string alloc jstr val
  | .endLongString => json_gen_end_long_string alloc jstr

/-- Run a sequence of operations, discarding the return codes (as the test
driver of the repository does). -/
def runOps (alloc : Nat → Bool) (jstr : json_gen_str_t)
    (ops : List GenOp) : json_gen_str_t :=
  ops.foldl (fun s op => (runOp alloc s op).2) jstr

/-- Instrumented variant of json_gen_handle_comma that also reports the
return codes of the append calls it actually performs (none when no
separator is due). -/
def handle_comma_codes (alloc : Nat → Bool) (jstr : json_gen_str_t) :
    List Int × json_gen_str_t :=
  if jstr.comma_req then
    let r := json_gen_add_to_str alloc jstr (some ",")
    ([r.1], r.2)
  else
    ([], jstr)

/-- Instrumented variant of json_gen_handle_name reporting the codes of its
three appends in order. -/
def handle_name_codes (alloc : Nat → Bool) (jstr : json_gen_str_t)
    (name : String) : List Int × json_gen_str_t :=
  let r1 := json_gen_add_to_str alloc jstr (some "\"")
  let r2 := json_gen_add_to_str alloc r1.2 (some name)
  let r3 := json_gen_add_to_str alloc r2.2 (some "\":")
  ([r1.1, r2.1, r3.1], r3.2)

/-- Instrumented variant of runOp: performs exactly the same internal
json_gen_add_to_str calls as the operation and reports all their return
codes in order, the code of the operation's final append last. -/
def runOpCodes (alloc : Nat → Bool) (jstr : json_gen_str_t) :
    GenOp → List Int × json_gen_str_t
  | .startObject =>
      let rc := handle_comma_codes alloc jstr
      let r := json_gen_add_to_str alloc { rc.2 with comma_req := false } (some "\x7b")
      (rc.1 ++ [r.1], r.2)
  | .endObject =>
      let r := json_gen_add_to_str alloc { jstr with comma_req := true } (some "\x7d")
      ([r.1], r.2)
  | .startArray =>
      let rc := handle_comma_codes alloc jstr
      let r := json_gen_add_to_str alloc { rc.2 with comma_req := false } (some "[")
      (rc.1 ++ [r.1], r.2)
  | .endArray =>
      let r := json_gen_add_to_str alloc { jstr with comma_req := true } (some "]")
      ([r.1], r.2)
  | .pushObject name =>
      let rc := handle_comma_codes alloc jstr
      let rn := handle_name_codes alloc rc.2 name
      let r := json_gen_add_to_str alloc { rn.2 with comma_req := false } (some "\x7b")
      (rc.1 ++ rn.1 ++ [r.1], r.2)
  | .popObject =>
      let r := json_gen_add_to_str alloc { jstr with comma_req := true } (some "\x7d")
      ([r.1], r.2)
  | .pushObjectStr name object_str =>
      let rc := handle_comma_codes alloc jstr
      let rn := handle_name_codes alloc rc.2 name
      let r := json_gen_add_to_str alloc { rn.2 with comma_req := true } (some object_str)
      (rc.1 ++ rn.1 ++ [r.1], r.2)
  | .pushArray name =>
      let rc := handle_comma_codes alloc jstr
      let rn := handle_name_codes alloc rc.2 name
      let r := json_gen_add_to_str alloc { rn.2 with comma_req := false } (some "[")
      (rc.1 ++ rn.1 ++ [r.1], r.2)
  | .popArray =>
      let r := json_gen_add_to_str alloc { jstr with comma_req := true } (some "]")
      ([r.1], r.2)
  | .pushArrayStr name array_str =>
      let rc := handle_comma_codes alloc jstr
      let rn := handle_name_codes alloc rc.2 name
      let r := json_gen_add_to_str alloc { rn.2 with comma_req := true } (some array_str)
      (rc.1 ++ rn.1 ++ [r.1], r.2)
  | .objSetBool name val =>
      let rc := handle_comma_codes alloc jstr
      let rn := handle_name_codes alloc rc.2 name
      let r := json_gen_add_to_str alloc { rn.2 with comma_req := true }
        (some (if val then "true" else "false"))
      (rc.1 ++ rn.1 ++ [r.1], r.2)
  | .arrSetBool val =>
      let rc := handle_comma_codes alloc jstr
      let r := json_gen_add_to_str alloc { rc.2 with comma_req := true }
        (some (if val then "true" else "false"))
      (rc.1 ++ [r.1], r.2)
  | .objSetInt name val =>
      let rc := handle_comma_codes alloc jstr
      let rn := handle_name_codes alloc rc.2 name
      let r := json_gen_add_to_str alloc { rn.2 with comma_req := true }
        (some (format_int val))
      (rc.1 ++ rn.1 ++ [r.1], r.2)
  | .arrSetInt val =>
      let rc := handle_comma_codes alloc jstr
      let r := json_gen_add_to_str alloc { rc.2 with comma_req := true }
        (some (format_int val))
      (rc.1 ++ [r.1], r.2)
  | .objSetInt64 name val =>
      let rc := handle_comma_codes alloc jstr
      let rn := handle_name_codes alloc rc.2 name
      let r := json_gen_add_to_str alloc { rn.2 with comma_req := true }
        (some (format_int64 val))
      (rc.1 ++ rn.1 ++ [r.1], r.2)
  | .arrSetInt64 val =>
      let rc := handle_comma_codes alloc jstr
      let r := json_gen_add_to_str alloc { rc.2 with comma_req := true }
        (some (format_int64 val))
      (rc.1 ++ [r.1], r.2)
  | .objSetFloat name val_str =>
      let rc := handle_comma_codes alloc jstr
      let rn := handle_name_codes alloc rc.2 name
      let r := json_gen_add_to_str alloc { rn.2 with comma_req := true }
        (some (snprintf_trunc MAX_FLOAT_IN_STR val_str))
      (rc.1 ++ rn.1 ++ [r.1], r.2)
  | .arrSetFloat val_str =>
      let rc := handle_comma_codes alloc jstr
      let r := json_gen_add_to_str alloc { rc.2 with comma_req := true }
        (some (snprintf_trunc MAX_FLOAT_IN_STR val_str))
      (rc.1 ++ [r.1], r.2)
  | .objSetString name val =>
      let rc := handle_comma_codes alloc jstr
      let rn := handle_name_codes alloc rc.2 name
      let r1 := json_gen_add_to_str alloc { rn.2 with comma_req := true } (some "\"")
      let r2 := json_gen_add_to_str alloc r1.2 (some val)
      let r3 := json_gen_add_to_str alloc r2.2 (some "\"")
      (rc.1 ++ rn.1 ++ [r1.1, r2.1, r3.1], r3.2)
  | .arrSetString val =>
      let rc := handle_comma_codes alloc jstr
      let r1 := json_gen_add_to_str alloc { rc.2 with comma_req := true } (some "\"")
      let r2 := json_gen_add_to_str alloc r1.2 (some val)
      let r3 := json_gen_add_to_str alloc r2.2 (some "\"")
      (rc.1 ++ [r1.1, r2.1, r3.1], r3.2)
  | .objSetNull name =>
      let rc := handle_comma_codes alloc jstr
      let rn := handle_name_codes alloc rc.2 name
      let r := json_gen_add_to_str alloc { rn.2 with comma_req := true } (some "null")
      (rc.1 ++ rn.1 ++ [r.1], r.2)
  | .arrSetNull =>
      let rc := handle_comma_codes alloc jstr
      let r := json_gen_add_to_str alloc { rc.2 with comma_req := true } (some "null")
      (rc.1 ++ [r.1], r.2)
  | .objStartLongString name val =>
      let rc := handle_comma_codes alloc jstr
      let rn := handle_name_codes alloc rc.2 name
      let r1 := json_gen_add_to_str alloc { rn.2 with comma_req := true } (some "\"")
      let r2 := json_gen_add_to_str alloc r1.2 (some val)
      (rc.1 ++ rn.1 ++ [r1.1, r2.1], r2.2)
  | .arrStartLongString val =>
      let rc := handle_comma_codes alloc jstr
      let r1 := json_gen_add_to_str alloc { rc.2 with comma_req := true } (some "\"")
      let r2 := json_gen_add_to_str alloc r1.2 (some val)
      (rc.1 ++ [r1.1, r2.1], r2.2)
  | .addToLongString val =>
      let r := json_gen_add_to_str alloc jstr (some val)
      ([r.1], r.2)
  | .endLongString =>
      let r := json_gen_add_to_str alloc jstr (some "\"")
      ([r.1], r.2)

/-- Expected separator-flag value after one public operation, exactly as the
specification states it, as a function of the flag before the operation:
false after every container-opening operation, true after every container
close, every scalar emission and every raw-fragment emission. The two
long-string continuation operations are outside the specification rule and
leave the flag alone. -/
def sepAfterSpec : GenOp → Bool → Bool
  | .startObject, _ => false
  | .startArray, _ => false
  | .pushObject _, _ => false
  | .pushArray _, _ => false
  | .addToLongString _, prev => prev
  | .endLongString, prev => prev
  | _, _ => true

/-- Concatenation of sibling texts with exactly one comma strictly between
each pair of consecutive siblings, no comma before the first and none after
the last: for N sibling texts, exactly N - 1 separator commas. -/
def sepCat : List String → String
  | [] => ""
  | [b] => b
  | b :: b2 :: rest => b ++ "," ++ sepCat (b2 :: rest)

/-- Tail form of sepCat: every sibling text preceded by one comma. -/
def commaJoin : List String → String
  | [] => ""
  | b :: rest => "," ++ b ++ commaJoin rest

/-- A sibling emitter: a state transformer that (with every allocation
succeeding) first applies the separator rule, then appends its own fixed
text `body` independent of the prior state, and leaves the separator flag
set. Every scalar emission, every raw-fragment emission and every
complete-container emission of the generator has this shape; see the
isSibling lemmas. -/
def IsSibling (f : json_gen_str_t → json_gen_str_t) (body : String) : Prop :=
  ∀ s, (f s).buf = s.buf ++ (if s.comma_req then "," else "") ++ body ∧
       (f s).comma_req = true

/-- Run a list of sibling emitters in order. -/
def runEmitters (jstr : json_gen_str_t)
    (sibs : List ((json_gen_str_t → json_gen_str_t) × String)) :
    json_gen_str_t :=
  sibs.foldl (fun s p => p.1 s) jstr

/-- The operation sequence of the end-to-end scenario of the specification:
start_object; obj_set_bool a true; push_array b; start_array; arr_set_int 1;
arr_set_int 2; arr_set_null; end_array; pop_array; end_object. -/
def scenarioOps : List GenOp :=
  [.startObject, .objSetBool "a" true, .pushArray "b", .startArray,
   .arrSetInt 1, .arrSetInt 2, .arrSetNull, .endArray, .popArray, .endObject]

/-- State reached by the scenario from a freshly initialized generator with
every allocation succeeding. -/
def scenarioState : json_gen_str_t :=
  runOps allocAlways (json_gen_str_start false 0) scenarioOps

/-- Result of finalizing the scenario. -/
def scenarioResult : Nat × json_gen_str_t × Option (String × Nat) :=
  json_gen_str_end scenarioState

/-- A 260-character key, longer than the whole initial buffer. -/
def name260 : String :=
  String.mk (List.replicate 260 'n')

/-- A 250-character string value, longer than the free space of a fresh
buffer. -/
def val250 : String :=
  String.mk (List.replicate 250 'v')

/-! Basic lemmas about the buffer manager. -/

/-- Appending never changes the separator flag, whatever the oracle says. -/
@[simp] theorem add_to_str_comma_req (alloc : Nat → Bool) (jstr : json_gen_str_t)
    (str : Option String) :
    (json_gen_add_to_str alloc jstr str).2.comma_req = jstr.comma_req := by
  cases str with
  | none => rfl
  | some s =>
    simp only [json_gen_add_to_str]
    split
    · split <;> rfl
    · rfl

/-- With every allocation succeeding, an append always returns 0. -/
@[simp] theorem add_allocAlways_code (jstr : json_gen_str_t) (s : String) :
    (json_gen_add_to_str allocAlways jstr (some s)).1 = 0 := by
  simp only [json_gen_add_to_str, allocAlways]
  split <;> rfl

/-- With every allocation succeeding, an append extends the buffer by
exactly the fragment. -/
@[simp] theorem add_allocAlways_buf (jstr : json_gen_str_t) (s : String) :
    (json_gen_add_to_str allocAlways jstr (some s)).2.buf = jstr.buf ++ s := by
  simp only [json_gen_add_to_str, allocAlways]
  split <;> rfl

/-- The separator flag survives json_gen_handle_comma unchanged. -/
@[simp] theorem handle_comma_comma_req (alloc : Nat → Bool)
    (jstr : json_gen_str_t) :
    (json_gen_handle_comma alloc jstr).comma_req = jstr.comma_req := by
  unfold json_gen_handle_comma
  split <;> simp_all

/-- With every allocation succeeding, json_gen_handle_comma appends exactly
one comma when the flag is set and nothing otherwise. -/
theorem handle_comma_allocAlways_buf (jstr : json_gen_str_t) :
    (json_gen_handle_comma allocAlways jstr).buf =
      jstr.buf ++ (if jstr.comma_req then "," else "") := by
  unfold json_gen_handle_comma
  split <;> simp_all

/-- The separator flag survives json_gen_handle_name unchanged. -/
@[simp] theorem handle_name_comma_req (alloc : Nat → Bool)
    (jstr : json_gen_str_t) (name : String) :
    (json_gen_handle_name alloc jstr name).2.comma_req = jstr.comma_req := by
  simp [json_gen_handle_name]

/-- With every allocation succeeding, json_gen_handle_name appends the
quoted key and the colon. -/
theorem handle_name_allocAlways_buf (jstr : json_gen_str_t) (name : String) :
    (json_gen_handle_name allocAlways jstr name).2.buf =
      jstr.buf ++ "\"" ++ name ++ "\":" := by
  simp [json_gen_handle_name, String.append_assoc]

/-! The terminator-slot invariant: the committed length stays strictly below
the capacity across every append, successful or not. -/

/-- One append preserves `total_len < buf_size`. -/
theorem add_to_str_len_lt (alloc : Nat → Bool) (jstr : json_gen_str_t)
    (str : Option String) (h : jstr.total_len < jstr.buf_size) :
    (json_gen_add_to_str alloc jstr str).2.total_len <
      (json_gen_add_to_str alloc jstr str).2.buf_size := by
  cases str with
  | none => exact h
  | some s =>
    simp only [json_gen_add_to_str]
    split
    · split
      · simp only
        omega
      · exact h
    · rename_i hle
      simp only [not_lt] at hle
      simp only
      omega

/-- The comma helper preserves the invariant. -/
theorem handle_comma_len_lt (alloc : Nat → Bool) (jstr : json_gen_str_t)
    (h : jstr.total_len < jstr.buf_size) :
    (json_gen_handle_comma alloc jstr).total_len <
      (json_gen_handle_comma alloc jstr).buf_size := by
  unfold json_gen_handle_comma
  split
  · exact add_to_str_len_lt alloc jstr (some ",") h
  · exact h

/-- The name helper preserves the invariant. -/
theorem handle_name_len_lt (alloc : Nat → Bool) (jstr : json_gen_str_t)
    (name : String) (h : jstr.total_len < jstr.buf_size) :
    (json_gen_handle_name alloc jstr name).2.total_len <
      (json_gen_handle_name alloc jstr name).2.buf_size := by
  unfold json_gen_handle_name
  exact add_to_str_len_lt _ _ _ (add_to_str_len_lt _ _ _ (add_to_str_len_lt _ _ _ h))

/-- The shared boolean encoder preserves the invariant. -/
theorem set_bool_len_lt (alloc : Nat → Bool) (jstr : json_gen_str_t)
    (val : Bool) (h : jstr.total_len < jstr.buf_size) :
    (json_gen_set_bool alloc jstr val).2.total_len <
      (json_gen_set_bool alloc jstr val).2.buf_size := by
  unfold json_gen_set_bool
  cases val
  · exact add_to_str_len_lt alloc { jstr with comma_req := true } (some "false") h
  · exact add_to_str_len_lt alloc { jstr with comma_req := true } (some "true") h

/-- The shared integer encoder preserves the invariant. -/
theorem set_int_len_lt (alloc : Nat → Bool) (jstr : json_gen_str_t)
    (val : Int) (h : jstr.total_len < jstr.buf_size) :
    (json_gen_set_int alloc jstr val).2.total_len <
      (json_gen_set_int alloc jstr val).2.buf_size := by
  unfold json_gen_set_int
  exact add_to_str_len_lt alloc { jstr with comma_req := true }
    (some (format_int val)) h

/-- The shared 64-bit integer encoder preserves the invariant. -/
theorem set_int64_len_lt (alloc : Nat → Bool) (jstr : json_gen_str_t)
    (val : Int) (h : jstr.total_len < jstr.buf_size) :
    (json_gen_set_int64 alloc jstr val).2.total_len <
      (json_gen_set_int64 alloc jstr val).2.buf_size := by
  unfold json_gen_set_int64
  exact add_to_str_len_lt alloc { jstr with comma_req := true }
    (some (format_int64 val)) h

/-- The shared float encoder preserves the invariant. -/
theorem set_float_len_lt (alloc : Nat → Bool) (jstr : json_gen_str_t)
    (val_str : String) (h : jstr.total_len < jstr.buf_size) :
    (json_gen_set_float alloc jstr val_str).2.total_len <
      (json_gen_set_float alloc jstr val_str).2.buf_size := by
  unfold json_gen_set_float
  exact add_to_str_len_lt alloc { jstr with comma_req := true }
    (some (snprintf_trunc MAX_FLOAT_IN_STR val_str)) h

/-- The shared string encoder preserves the invariant. -/
theorem set_string_len_lt (alloc : Nat → Bool) (jstr : json_gen_str_t)
    (val : String) (h : jstr.total_len < jstr.buf_size) :
    (json_gen_set_string alloc jstr val).2.total_len <
      (json_gen_set_string alloc jstr val).2.buf_size := by
  unfold json_gen_set_string
  exact add_to_str_len_lt _ _ _ (add_to_str_len_lt _ _ _
    (add_to_str_len_lt alloc { jstr with comma_req := true } (some "\"") h))

/-- The shared long-string opener preserves the invariant. -/
theorem set_long_string_len_lt (alloc : Nat → Bool) (jstr : json_gen_str_t)
    (val : String) (h : jstr.total_len < jstr.buf_size) :
    (json_gen_set_long_string alloc jstr val).2.total_len <
      (json_gen_set_long_string alloc jstr val).2.buf_size := by
  unfold json_gen_set_long_string
  exact add_to_str_len_lt _ _ _
    (add_to_str_len_lt alloc { jstr with comma_req := true } (some "\"") h)

/-- The shared null encoder preserves the invariant. -/
theorem set_null_len_lt (alloc : Nat → Bool) (jstr : json_gen_str_t)
    (h : jstr.total_len < jstr.buf_size) :
    (json_gen_set_null alloc jstr).2.total_len <
      (json_gen_set_null alloc jstr).2.buf_size := by
  unfold json_gen_set_null
  exact add_to_str_len_lt alloc { jstr with comma_req := true } (some "null") h

/-- Every public operation preserves the invariant, whether or not its
appends succeed. -/
theorem runOp_len_lt (alloc : Nat → Bool) (jstr : json_gen_str_t) (op : GenOp)
    (h : jstr.total_len < jstr.buf_size) :
    (runOp alloc jstr op).2.total_len < (runOp alloc jstr op).2.buf_size := by
  cases op with
  | startObject =>
      simp only [runOp, json_gen_start_object]
      exact add_to_str_len_lt _ _ _ (handle_comma_len_lt _ _ h)
  | endObject =>
      simp only [runOp, json_gen_end_object]
      exact add_to_str_len_lt _ _ _ h
  | startArray =>
      simp only [runOp, json_gen_start_array]
      exact add_to_str_len_lt _ _ _ (handle_comma_len_lt _ _ h)
  | endArray =>
      simp only [runOp, json_gen_end_array]
      exact add_to_str_len_lt _ _ _ h
  | pushObject name =>
      simp only [runOp, json_gen_push_object]
      exact add_to_str_len_lt _ _ _
        (handle_name_len_lt _ _ _ (handle_comma_len_lt _ _ h))
  | popObject =>
      simp only [runOp, json_gen_pop_object]
      exact add_to_str_len_lt _ _ _ h
  | pushObjectStr name object_str =>
      simp only [runOp, json_gen_push_object_str]
      exact add_to_str_len_lt _ _ _
        (handle_name_len_lt _ _ _ (handle_comma_len_lt _ _ h))
  | pushArray name =>
      simp only [runOp, json_gen_push_array]
      exact add_to_str_len_lt _ _ _
        (handle_name_len_lt _ _ _ (handle_comma_len_lt _ _ h))
  | popArray =>
      simp only [runOp, json_gen_pop_array]
      exact add_to_str_len_lt _ _ _ h
  | pushArrayStr name array_str =>
      simp only [runOp, json_gen_push_array_str]
      exact add_to_str_len_lt _ _ _
        (handle_name_len_lt _ _ _ (handle_comma_len_lt _ _ h))
  | objSetBool name val =>
      simp only [runOp, json_gen_obj_set_bool]
      exact set_bool_len_lt _ _ _
        (handle_name_len_lt _ _ _ (handle_comma_len_lt _ _ h))
  | arrSetBool val =>
      simp only [runOp, json_gen_arr_set_bool]
      exact set_bool_len_lt _ _ _ (handle_comma_len_lt _ _ h)
  | objSetInt name val =>
      simp only [runOp, json_gen_obj_set_int]
      exact set_int_len_lt _ _ _
        (handle_name_len_lt _ _ _ (handle_comma_len_lt _ _ h))
  | arrSetInt val =>
      simp only [runOp, json_gen_arr_set_int]
      exact set_int_len_lt _ _ _ (handle_comma_len_lt _ _ h)
  | objSetInt64 name val =>
      simp only [runOp, json_gen_obj_set_int64]
      exact set_int64_len_lt _ _ _
        (handle_name_len_lt _ _ _ (handle_comma_len_lt _ _ h))
  | arrSetInt64 val =>
      simp only [runOp, json_gen_arr_set_int64]
      exact set_int64_len_lt _ _ _ (handle_comma_len_lt _ _ h)
  | objSetFloat name val_str =>
      simp only [runOp, json_gen_obj_set_float]
      exact set_float_len_lt _ _ _
        (handle_name_len_lt _ _ _ (handle_comma_len_lt _ _ h))
  | arrSetFloat val_str =>
      simp only [runOp, json_gen_arr_set_float]
      exact set_float_len_lt _ _ _ (handle_comma_len_lt _ _ h)
  | objSetString name val =>
      simp only [runOp, json_gen_obj_set_string]
      exact set_string_len_lt _ _ _
        (handle_name_len_lt _ _ _ (handle_comma_len_lt _ _ h))
  | arrSetString val =>
      simp only [runOp, json_gen_arr_set_string]
      exact set_string_len_lt _ _ _ (handle_comma_len_lt _ _ h)
  | objSetNull name =>
      simp only [runOp, json_gen_obj_set_null]
      exact set_null_len_lt _ _
        (handle_name_len_lt _ _ _ (handle_comma_len_lt _ _ h))
  | arrSetNull =>
      simp only [runOp, json_gen_arr_set_null]
      exact set_null_len_lt _ _ (handle_comma_len_lt _ _ h)
  | objStartLongString name val =>
      simp only [runOp, json_gen_obj_start_long_string]
      exact set_long_string_len_lt _ _ _
        (handle_name_len_lt _ _ _ (handle_comma_len_lt _ _ h))
  | arrStartLongString val =>
      simp only [runOp, json_gen_arr_start_long_string]
      exact set_long_string_len_lt _ _ _ (handle_comma_len_lt _ _ h)
  | addToLongString val =>
      simp only [runOp, json_gen_add_to_long_string]
      exact add_to_str_len_lt _ _ _ h
  | endLongString =>
      simp only [runOp, json_gen_end_long_string]
      exact add_to_str_len_lt _ _ _ h

/-! The separator state machine: sibling emitters and comma placement. -/

/-- Unfolding lemma: sepCat of a cons is the head followed by comma-prefixed
tails. -/
theorem sepCat_cons (b : String) (bs : List String) :
    sepCat (b :: bs) = b ++ commaJoin bs := by
  induction bs generalizing b with
  | nil => simp [sepCat, commaJoin]
  | cons b2 rest ih =>
      rw [sepCat, ih b2, commaJoin]
      simp [String.append_assoc]

/-- Running sibling emitters from a state that already owes a separator
appends each body prefixed by one comma, and leaves the flag set. -/
theorem runEmitters_spec_true
    (sibs : List ((json_gen_str_t → json_gen_str_t) × String))
    (h : ∀ p ∈ sibs, IsSibling p.1 p.2) (s : json_gen_str_t)
    (hc : s.comma_req = true) :
    (runEmitters s sibs).buf = s.buf ++ commaJoin (sibs.map Prod.snd) ∧
    (runEmitters s sibs).comma_req = true := by
  induction sibs generalizing s with
  | nil => simp [runEmitters, commaJoin, hc]
  | cons p rest ih =>
      obtain ⟨hb, hcr⟩ := h p (List.mem_cons_self p rest) s
      have hrest := ih (fun q hq => h q (List.mem_cons_of_mem p hq)) (p.1 s) hcr
      refine ⟨?_, ?_⟩
      · show (runEmitters (p.1 s) rest).buf = _
        rw [hrest.1, hb, hc]
        simp [commaJoin, String.append_assoc]
      · show (runEmitters (p.1 s) rest).comma_req = true
        exact hrest.2

/-- Running sibling emitters from a state with no separator due (the state
just after opening a container) appends exactly the bodies separated by
single commas. -/
theorem runEmitters_spec_false
    (sibs : List ((json_gen_str_t → json_gen_str_t) × String))
    (h : ∀ p ∈ sibs, IsSibling p.1 p.2) (s : json_gen_str_t)
    (hc : s.comma_req = false) :
    (runEmitters s sibs).buf = s.buf ++ sepCat (sibs.map Prod.snd) := by
  cases sibs with
  | nil => simp [runEmitters, sepCat]
  | cons p rest =>
      obtain ⟨hb, hcr⟩ := h p (List.mem_cons_self p rest) s
      have hrest := runEmitters_spec_true rest
        (fun q hq => h q (List.mem_cons_of_mem p hq)) (p.1 s) hcr
      show (runEmitters (p.1 s) rest).buf = _
      rw [hrest.1, hb, hc, List.map_cons, sepCat_cons]
      simp [String.append_assoc]

/-- The array-element null emission is a sibling emitter with body "null". -/
theorem isSibling_arr_set_null :
    IsSibling (fun s => (json_gen_arr_set_null allocAlways s).2) "null" := by
  intro s
  constructor
  · simp [json_gen_arr_set_null, json_gen_set_null,
      handle_comma_allocAlways_buf, String.append_assoc]
  · simp [json_gen_arr_set_null, json_gen_set_null]

/-- The array-element integer emission is a sibling emitter whose body is
the rendered decimal text. -/
theorem isSibling_arr_set_int (val : Int) :
    IsSibling (fun s => (json_gen_arr_set_int allocAlways s val).2)
      (format_int val) := by
  intro s
  constructor
  · simp [json_gen_arr_set_int, json_gen_set_int,
      handle_comma_allocAlways_buf, String.append_assoc]
  · simp [json_gen_arr_set_int, json_gen_set_int]

/-- The array-element boolean emission is a sibling emitter with body true
or false. -/
theorem isSibling_arr_set_bool (val : Bool) :
    IsSibling (fun s => (json_gen_arr_set_bool allocAlways s val).2)
      (if val then "true" else "false") := by
  intro s
  cases val <;>
    simp [json_gen_arr_set_bool, json_gen_set_bool,
      handle_comma_allocAlways_buf, String.append_assoc]

/-- The array-element 64-bit integer emission is a sibling emitter. -/
theorem isSibling_arr_set_int64 (val : Int) :
    IsSibling (fun s => (json_gen_arr_set_int64 allocAlways s val).2)
      (format_int64 val) := by
  intro s
  constructor
  · simp [json_gen_arr_set_int64, json_gen_set_int64,
      handle_comma_allocAlways_buf, String.append_assoc]
  · simp [json_gen_arr_set_int64, json_gen_set_int64]

/-- The array-element float emission is a sibling emitter whose body is the
rendered (truncated) decimal text. -/
theorem isSibling_arr_set_float (val_str : String) :
    IsSibling (fun s => (json_gen_arr_set_float allocAlways s val_str).2)
      (snprintf_trunc MAX_FLOAT_IN_STR val_str) := by
  intro s
  constructor
  · simp [json_gen_arr_set_float, json_gen_set_float,
      handle_comma_allocAlways_buf, String.append_assoc]
  · simp [json_gen_arr_set_float, json_gen_set_float]

/-- The array-element string emission is a sibling emitter with the quoted
content as body. -/
theorem isSibling_arr_set_string (val : String) :
    IsSibling (fun s => (json_gen_arr_set_string allocAlways s val).2)
      ("\"" ++ val ++ "\"") := by
  intro s
  constructor
  · simp [json_gen_arr_set_string, json_gen_set_string,
      handle_comma_allocAlways_buf, String.append_assoc]
  · simp [json_gen_arr_set_string, json_gen_set_string]

/-- A named-member null emission is a sibling emitter (the quoted key, the
colon and the value form its body). -/
theorem isSibling_obj_set_null (name : String) :
    IsSibling (fun s => (json_gen_obj_set_null allocAlways s name).2)
      ("\"" ++ name ++ "\":" ++ "null") := by
  intro s
  constructor
  · simp [json_gen_obj_set_null, json_gen_set_null,
      handle_comma_allocAlways_buf, handle_name_allocAlways_buf,
      String.append_assoc]
  · simp [json_gen_obj_set_null, json_gen_set_null]

/-- A named-member boolean emission is a sibling emitter. -/
theorem isSibling_obj_set_bool (name : String) (val : Bool) :
    IsSibling (fun s => (json_gen_obj_set_bool allocAlways s name val).2)
      ("\"" ++ name ++ "\":" ++ (if val then "true" else "false")) := by
  intro s
  cases val <;>
    simp [json_gen_obj_set_bool, json_gen_set_bool,
      handle_comma_allocAlways_buf, handle_name_allocAlways_buf,
      String.append_assoc]

/-- A named-member integer emission is a sibling emitter. -/
theorem isSibling_obj_set_int (name : String) (val : Int) :
    IsSibling (fun s => (json_gen_obj_set_int allocAlways s name val).2)
      ("\"" ++ name ++ "\":" ++ format_int val) := by
  intro s
  constructor
  · simp [json_gen_obj_set_int, json_gen_set_int,
      handle_comma_allocAlways_buf, handle_name_allocAlways_buf,
      String.append_assoc]
  · simp [json_gen_obj_set_int, json_gen_set_int]

/-- A named-member 64-bit integer emission is a sibling emitter. -/
theorem isSibling_obj_set_int64 (name : String) (val : Int) :
    IsSibling (fun s => (json_gen_obj_set_int64 allocAlways s name val).2)
      ("\"" ++ name ++ "\":" ++ format_int64 val) := by
  intro s
  constructor
  · simp [json_gen_obj_set_int64, json_gen_set_int64,
      handle_comma_allocAlways_buf, handle_name_allocAlways_buf,
      String.append_assoc]
  · simp [json_gen_obj_set_int64, json_gen_set_int64]

/-- A named-member float emission is a sibling emitter. -/
theorem isSibling_obj_set_float (name val_str : String) :
    IsSibling (fun s => (json_gen_obj_set_float allocAlways s name val_str).2)
      ("\"" ++ name ++ "\":" ++ snprintf_trunc MAX_FLOAT_IN_STR val_str) := by
  intro s
  constructor
  · simp [json_gen_obj_set_float, json_gen_set_float,
      handle_comma_allocAlways_buf, handle_name_allocAlways_buf,
      String.append_assoc]
  · simp [json_gen_obj_set_float, json_gen_set_float]

/-- A named-member string emission is a sibling emitter. -/
theorem isSibling_obj_set_string (name val : String) :
    IsSibling (fun s => (json_gen_obj_set_string allocAlways s name val).2)
      ("\"" ++ name ++ "\":" ++ ("\"" ++ val ++ "\"")) := by
  intro s
  constructor
  · simp only [json_gen_obj_set_string, json_gen_set_string,
      add_allocAlways_buf, handle_comma_allocAlways_buf,
      handle_name_allocAlways_buf, String.append_assoc]
  · simp [json_gen_obj_set_string, json_gen_set_string]

/-- A raw pre-rendered fragment spliced as a named member is a sibling
emitter. -/
theorem isSibling_push_object_str (name object_str : String) :
    IsSibling
      (fun s => (json_gen_push_object_str allocAlways s name object_str).2)
      ("\"" ++ name ++ "\":" ++ object_str) := by
  intro s
  constructor
  · simp [json_gen_push_object_str,
      handle_comma_allocAlways_buf, handle_name_allocAlways_buf,
      String.append_assoc]
  · simp [json_gen_push_object_str]

/-- A raw pre-rendered array fragment spliced as a named member is a sibling
emitter. -/
theorem isSibling_push_array_str (name array_str : String) :
    IsSibling
      (fun s => (json_gen_push_array_str allocAlways s name array_str).2)
      ("\"" ++ name ++ "\":" ++ array_str) := by
  intro s
  constructor
  · simp [json_gen_push_array_str,
      handle_comma_allocAlways_buf, handle_name_allocAlways_buf,
      String.append_assoc]
  · simp [json_gen_push_array_str]

/-- A complete bare object, that is start_object, a list of sibling
children, end_object, is itself a sibling emitter whose body is the braced
children text. -/
theorem isSibling_object
    (sibs : List ((json_gen_str_t → json_gen_str_t) × String))
    (h : ∀ p ∈ sibs, IsSibling p.1 p.2) :
    IsSibling
      (fun s => (json_gen_end_object allocAlways
        (runEmitters (json_gen_start_object allocAlways s).2 sibs)).2)
      ("\x7b" ++ sepCat (sibs.map Prod.snd) ++ "\x7d") := by
  intro s
  have hs_buf : (json_gen_start_object allocAlways s).2.buf =
      s.buf ++ (if s.comma_req then "," else "") ++ "\x7b" := by
    simp only [json_gen_start_object, add_allocAlways_buf,
      handle_comma_allocAlways_buf]
  have hs_cr : (json_gen_start_object allocAlways s).2.comma_req = false := by
    simp [json_gen_start_object]
  have hrun := runEmitters_spec_false sibs h _ hs_cr
  constructor
  · simp only [json_gen_end_object, add_allocAlways_buf]
    rw [hrun, hs_buf]
    simp only [String.append_assoc]
  · simp [json_gen_end_object]

/-- A complete bare array is itself a sibling emitter. -/
theorem isSibling_array
    (sibs : List ((json_gen_str_t → json_gen_str_t) × String))
    (h : ∀ p ∈ sibs, IsSibling p.1 p.2) :
    IsSibling
      (fun s => (json_gen_end_array allocAlways
        (runEmitters (json_gen_start_array allocAlways s).2 sibs)).2)
      ("[" ++ sepCat (sibs.map Prod.snd) ++ "]") := by
  intro s
  have hs_buf : (json_gen_start_array allocAlways s).2.buf =
      s.buf ++ (if s.comma_req then "," else "") ++ "[" := by
    simp only [json_gen_start_array, add_allocAlways_buf,
      handle_comma_allocAlways_buf]
  have hs_cr : (json_gen_start_array allocAlways s).2.comma_req = false := by
    simp [json_gen_start_array]
  have hrun := runEmitters_spec_false sibs h _ hs_cr
  constructor
  · simp only [json_gen_end_array, add_allocAlways_buf]
    rw [hrun, hs_buf]
    simp only [String.append_assoc]
  · simp [json_gen_end_array]

/-- A complete named-member object (push_object, children, pop_object) is a
sibling emitter whose body carries the quoted key. -/
theorem isSibling_push_object (name : String)
    (sibs : List ((json_gen_str_t → json_gen_str_t) × String))
    (h : ∀ p ∈ sibs, IsSibling p.1 p.2) :
    IsSibling
      (fun s => (json_gen_pop_object allocAlways
        (runEmitters (json_gen_push_object allocAlways s name).2 sibs)).2)
      ("\"" ++ name ++ "\":" ++ "\x7b" ++ sepCat (sibs.map Prod.snd) ++ "\x7d") := by
  intro s
  have hs_buf : (json_gen_push_object allocAlways s name).2.buf =
      s.buf ++ (if s.comma_req then "," else "") ++ "\"" ++ name ++ "\":" ++ "\x7b" := by
    simp only [json_gen_push_object, add_allocAlways_buf,
      handle_comma_allocAlways_buf, handle_name_allocAlways_buf]
  have hs_cr : (json_gen_push_object allocAlways s name).2.comma_req = false := by
    simp [json_gen_push_object]
  have hrun := runEmitters_spec_false sibs h _ hs_cr
  constructor
  · simp only [json_gen_pop_object, add_allocAlways_buf]
    rw [hrun, hs_buf]
    simp only [String.append_assoc]
  · simp [json_gen_pop_object]

/-- A complete named-member array (push_array, children, pop_array) is a
sibling emitter whose body carries the quoted key. -/
theorem isSibling_push_array (name : String)
    (sibs : List ((json_gen_str_t → json_gen_str_t) × String))
    (h : ∀ p ∈ sibs, IsSibling p.1 p.2) :
    IsSibling
      (fun s => (json_gen_pop_array allocAlways
        (runEmitters (json_gen_push_array allocAlways s name).2 sibs)).2)
      ("\"" ++ name ++ "\":" ++ "[" ++ sepCat (sibs.map Prod.snd) ++ "]") := by
  intro s
  have hs_buf : (json_gen_push_array allocAlways s name).2.buf =
      s.buf ++ (if s.comma_req then "," else "") ++ "\"" ++ name ++ "\":" ++ "[" := by
    simp only [json_gen_push_array, add_allocAlways_buf,
      handle_comma_allocAlways_buf, handle_name_allocAlways_buf]
  have hs_cr : (json_gen_push_array allocAlways s name).2.comma_req = false := by
    simp [json_gen_push_array]
  have hrun := runEmitters_spec_false sibs h _ hs_cr
  constructor
  · simp only [json_gen_pop_array, add_allocAlways_buf]
    rw [hrun, hs_buf]
    simp only [String.append_assoc]
  · simp [json_gen_pop_array]

/-- The instrumented comma helper reaches the same state as the original. -/
theorem handle_comma_codes_snd (alloc : Nat → Bool) (s : json_gen_str_t) :
    (handle_comma_codes alloc s).2 = json_gen_handle_comma alloc s := by
  unfold handle_comma_codes json_gen_handle_comma
  split <;> rfl

/-- The instrumented name helper reaches the same state as the original. -/
theorem handle_name_codes_snd (alloc : Nat → Bool) (s : json_gen_str_t)
    (name : String) :
    (handle_name_codes alloc s name).2 = (json_gen_handle_name alloc s name).2 :=
  rfl

/-! Claim theorems. -/

set_option maxRecDepth 4000 in
/-- Claim C1, counterexample: the scenario sequence of the specification
(start_object; obj_set_bool a true; push_array b; start_array; the three
array elements; end_array; pop_array; end_object; finalize) does not produce
the claimed text (the object whose member b holds a single-bracketed array),
and finalize does not return 26, the claimed character count plus one. The
push_array b step already emits the quoted key and an opening bracket, and
the following start_array emits a second bracket. -/
theorem C1_counterexample :
    scenarioResult.2.1.buf ≠ "\x7b\"a\":true,\"b\":[1,2,null]\x7d" ∧
    scenarioResult.1 ≠ 26 := by
  constructor
  · decide
  · decide

set_option maxRecDepth 4000 in
/-- Claim C1 as amended: the scenario sequence produces exactly the text in
which member b holds a double-bracketed array, [[1,2,null]], because
push_array itself opens an array and start_array opens a second one; the
finalize call returns the character count of that text plus one, 28. -/
theorem C1_amended_scenario :
    scenarioResult.2.1.buf = "\x7b\"a\":true,\"b\":[[1,2,null]]\x7d" ∧
    scenarioResult.1 = scenarioResult.2.1.buf.length + 1 ∧
    scenarioResult.1 = 28 := by
  refine ⟨by decide, by decide, by decide⟩

/-- Claim C7: for every initialized state, finalize returns the committed
length plus one whether or not a callback was registered, leaves the state
(and so the buffer) untouched, and invokes the flush callback exactly once
with the full buffer contents and the context value exactly when one was
registered. The terminator write of the source lands at index total_len,
outside the committed content, so the buffer a reader or the callback sees
is exactly the committed text. -/
theorem C7_finalize_contract (s : json_gen_str_t) :
    (json_gen_str_end s).1 = s.total_len + 1 ∧
    (json_gen_str_end s).2.1 = s ∧
    (s.flush_cb = true →
      (json_gen_str_end s).2.2 = some (json_gen_get_json_string s, s.priv)) ∧
    (s.flush_cb = false → (json_gen_str_end s).2.2 = none) := by
  refine ⟨rfl, rfl, ?_, ?_⟩ <;> intro h <;>
    simp [json_gen_str_end, json_gen_get_json_string, h]

/-- Claim C7, witness: finalizing a fresh generator with a registered
callback and context 7 returns length 1 and records one callback invocation
with the empty buffer and context 7. -/
theorem C7_finalize_witness :
    (json_gen_str_end (json_gen_str_start true 7)).1 = 1 ∧
    (json_gen_str_end (json_gen_str_start true 7)).2.2 = some ("", 7) :=
  ⟨(C7_finalize_contract (json_gen_str_start true 7)).1,
   (C7_finalize_contract (json_gen_str_start true 7)).2.2.1 rfl⟩

/-- Claim C10: finalize changes neither the committed length, nor the
separator flag, nor any committed byte; finalizing twice returns the same
value both times, the text accessor reads back identical bytes, and each
call records exactly one callback invocation (the same one). -/
theorem C10_finalize_idempotent (s : json_gen_str_t) :
    (json_gen_str_end s).2.1.total_len = s.total_len ∧
    (json_gen_str_end s).2.1.comma_req = s.comma_req ∧
    json_gen_get_json_string ((json_gen_str_end s).2.1) =
      json_gen_get_json_string s ∧
    (json_gen_str_end ((json_gen_str_end s).2.1)).1 = (json_gen_str_end s).1 ∧
    (json_gen_str_end ((json_gen_str_end s).2.1)).2.1.buf =
      (json_gen_str_end s).2.1.buf ∧
    (json_gen_str_end ((json_gen_str_end s).2.1)).2.2 =
      (json_gen_str_end s).2.2 :=
  ⟨rfl, rfl, rfl, rfl, rfl, rfl⟩

/-- Claim C9: the 64-bit value -102030405060708090 renders as exactly the
19-character decimal text with a leading minus sign, with no truncation (the
24-byte snprintf buffer holds up to 23 characters), and the shared int64
encoder appends exactly that text to any buffer when allocation succeeds. -/
theorem C9_int64_precision :
    format_int64 (-102030405060708090) = "-102030405060708090" ∧
    ∀ s : json_gen_str_t,
      (json_gen_set_int64 allocAlways s (-102030405060708090)).1 = 0 ∧
      (json_gen_set_int64 allocAlways s (-102030405060708090)).2.buf =
        s.buf ++ "-102030405060708090" := by
  have hf : format_int64 (-102030405060708090) = "-102030405060708090" := by
    set_option maxRecDepth 4000 in decide
  refine ⟨hf, fun s => ⟨by simp [json_gen_set_int64], ?_⟩⟩
  simp [json_gen_set_int64, hf]

/-- Claim C4: when an append needs more room than the current capacity, the
buffer is reallocated to exactly the required length plus the fixed slack
250 and the capacity field becomes that size, with every committed byte
preserved (the new buffer is the old content plus the fragment); when the
reallocation fails the append returns -1 and the state, committed length,
bytes and capacity included, is exactly unchanged, the fragment unwritten. -/
theorem C4_growth_policy (alloc : Nat → Bool) (s : json_gen_str_t)
    (t : String)
    (hgrow : s.buf_size < s.total_len + t.length + 1) :
    (alloc (s.total_len + t.length + 1 + MEM_CHUNK_SIZE) = true →
      json_gen_add_to_str alloc s (some t) =
        (0, { s with buf := s.buf ++ t,
                     buf_size := s.total_len + t.length + 1 + MEM_CHUNK_SIZE,
                     total_len := s.total_len + t.length })) ∧
    (alloc (s.total_len + t.length + 1 + MEM_CHUNK_SIZE) = false →
      json_gen_add_to_str alloc s (some t) = (-1, s)) := by
  constructor <;> intro ha <;> simp [json_gen_add_to_str, hgrow, ha]

/-- Claim C4, witness: growing a full 3-byte buffer by the fragment xy
reallocates to 2 + 2 + 1 + 250 = 255 bytes and keeps the old bytes, and the
same append under a failing allocator leaves the state untouched and
returns -1. -/
theorem C4_growth_witness :
    json_gen_add_to_str allocAlways
        { buf := "ab", buf_size := 3, total_len := 2, comma_req := false,
          flush_cb := false, priv := 0 } (some "xy") =
      (0, { buf := "abxy", buf_size := 255, total_len := 4,
            comma_req := false, flush_cb := false, priv := 0 }) ∧
    json_gen_add_to_str allocNever
        { buf := "ab", buf_size := 3, total_len := 2, comma_req := false,
          flush_cb := false, priv := 0 } (some "xy") =
      (-1, { buf := "ab", buf_size := 3, total_len := 2, comma_req := false,
             flush_cb := false, priv := 0 }) := by
  constructor
  · exact (C4_growth_policy allocAlways
      { buf := "ab", buf_size := 3, total_len := 2, comma_req := false,
        flush_cb := false, priv := 0 } "xy" (by decide)).1 rfl
  · exact (C4_growth_policy allocNever
      { buf := "ab", buf_size := 3, total_len := 2, comma_req := false,
        flush_cb := false, priv := 0 } "xy" (by decide)).2 rfl

/-- Claim C8: the committed length is strictly below the capacity right
after initialization, and every public operation preserves that bound, so it
holds after every successful mutating operation (indeed also after failed
ones); one slot is thereby always reserved for the terminator. -/
theorem C8_length_lt_capacity :
    (∀ (cb : Bool) (p : Nat),
      (json_gen_str_start cb p).total_len < (json_gen_str_start cb p).buf_size) ∧
    ∀ (alloc : Nat → Bool) (s : json_gen_str_t) (op : GenOp),
      s.total_len < s.buf_size →
      (runOp alloc s op).2.total_len < (runOp alloc s op).2.buf_size :=
  ⟨fun _ _ => by simp [json_gen_str_start, MEM_CHUNK_SIZE], fun alloc s op h => runOp_len_lt alloc s op h⟩

/-- Claim C8, witness: opening the root object on a fresh generator keeps
the committed length below the capacity. -/
theorem C8_length_witness :
    (runOp allocAlways (json_gen_str_start false 0) .startObject).2.total_len <
      (runOp allocAlways (json_gen_str_start false 0) .startObject).2.buf_size :=
  C8_length_lt_capacity.2 allocAlways (json_gen_str_start false 0) .startObject
    (by decide)

/-- Claim C2: inside one open container (a state whose separator flag is
clear, as it is right after any container open), running any sequence of
N >= 2 sibling emissions, each a scalar value, raw fragment or complete
container (see the isSibling lemmas), with every allocation succeeding,
appends the sibling bodies joined by exactly N - 1 commas, each strictly
between two consecutive siblings, none before the first and none after the
last: that is what sepCat builds. -/
theorem C2_separator_correctness
    (sibs : List ((json_gen_str_t → json_gen_str_t) × String))
    (s : json_gen_str_t)
    (hsib : ∀ p ∈ sibs, IsSibling p.1 p.2)
    (_hN : 2 ≤ sibs.length)
    (hc : s.comma_req = false) :
    (runEmitters s sibs).buf = s.buf ++ sepCat (sibs.map Prod.snd) :=
  runEmitters_spec_false sibs hsib s hc

/-- Claim C2, witness: after opening an array on a fresh generator, emitting
the integer 1 and null as two siblings yields the two bodies joined by one
comma. -/
theorem C2_separator_witness :
    (runEmitters
      ((json_gen_start_array allocAlways (json_gen_str_start false 0)).2)
      [(fun s => (json_gen_arr_set_int allocAlways s 1).2, format_int 1),
       (fun s => (json_gen_arr_set_null allocAlways s).2, "null")]).buf =
    ((json_gen_start_array allocAlways (json_gen_str_start false 0)).2).buf ++
      sepCat ([(fun s => (json_gen_arr_set_int allocAlways s 1).2, format_int 1),
        (fun s => (json_gen_arr_set_null allocAlways s).2, "null")].map Prod.snd) := by
  refine C2_separator_correctness _ _ ?_ (by simp) (by decide)
  intro p hp
  rcases List.mem_cons.mp hp with rfl | hp2
  · exact isSibling_arr_set_int 1
  · rcases List.mem_cons.mp hp2 with rfl | hp3
    · exact isSibling_arr_set_null
    · exact absurd hp3 (List.not_mem_nil p)

/-- Claim C3: the separator flag is false right after initialization and
right after every container-opening operation, true right after every
container close, every scalar emission and every raw-fragment emission, for
every allocation oracle, prior state and argument values; sepAfterSpec is
that tabulation of the specification. -/
theorem C3_separator_flag :
    (∀ (cb : Bool) (p : Nat), (json_gen_str_start cb p).comma_req = false) ∧
    ∀ (alloc : Nat → Bool) (s : json_gen_str_t) (op : GenOp),
      (runOp alloc s op).2.comma_req = sepAfterSpec op s.comma_req := by
  refine ⟨fun _ _ => rfl, fun alloc s op => ?_⟩
  cases op with
  | startObject => simp [runOp, sepAfterSpec, json_gen_start_object]
  | endObject => simp [runOp, sepAfterSpec, json_gen_end_object]
  | startArray => simp [runOp, sepAfterSpec, json_gen_start_array]
  | endArray => simp [runOp, sepAfterSpec, json_gen_end_array]
  | pushObject name => simp [runOp, sepAfterSpec, json_gen_push_object]
  | popObject => simp [runOp, sepAfterSpec, json_gen_pop_object]
  | pushObjectStr name object_str =>
      simp [runOp, sepAfterSpec, json_gen_push_object_str]
  | pushArray name => simp [runOp, sepAfterSpec, json_gen_push_array]
  | popArray => simp [runOp, sepAfterSpec, json_gen_pop_array]
  | pushArrayStr name array_str =>
      simp [runOp, sepAfterSpec, json_gen_push_array_str]
  | objSetBool name val =>
      cases val <;>
        simp [runOp, sepAfterSpec, json_gen_obj_set_bool, json_gen_set_bool]
  | arrSetBool val =>
      cases val <;>
        simp [runOp, sepAfterSpec, json_gen_arr_set_bool, json_gen_set_bool]
  | objSetInt name val =>
      simp [runOp, sepAfterSpec, json_gen_obj_set_int, json_gen_set_int]
  | arrSetInt val =>
      simp [runOp, sepAfterSpec, json_gen_arr_set_int, json_gen_set_int]
  | objSetInt64 name val =>
      simp [runOp, sepAfterSpec, json_gen_obj_set_int64, json_gen_set_int64]
  | arrSetInt64 val =>
      simp [runOp, sepAfterSpec, json_gen_arr_set_int64, json_gen_set_int64]
  | objSetFloat name val_str =>
      simp [runOp, sepAfterSpec, json_gen_obj_set_float, json_gen_set_float]
  | arrSetFloat val_str =>
      simp [runOp, sepAfterSpec, json_gen_arr_set_float, json_gen_set_float]
  | objSetString name val =>
      simp [runOp, sepAfterSpec, json_gen_obj_set_string, json_gen_set_string]
  | arrSetString val =>
      simp [runOp, sepAfterSpec, json_gen_arr_set_string, json_gen_set_string]
  | objSetNull name =>
      simp [runOp, sepAfterSpec, json_gen_obj_set_null, json_gen_set_null]
  | arrSetNull =>
      simp [runOp, sepAfterSpec, json_gen_arr_set_null, json_gen_set_null]
  | objStartLongString name val =>
      simp [runOp, sepAfterSpec, json_gen_obj_start_long_string,
        json_gen_set_long_string]
  | arrStartLongString val =>
      simp [runOp, sepAfterSpec, json_gen_arr_start_long_string,
        json_gen_set_long_string]
  | addToLongString val =>
      simp [runOp, sepAfterSpec, json_gen_add_to_long_string]
  | endLongString =>
      simp [runOp, sepAfterSpec, json_gen_end_long_string]

set_option maxRecDepth 8000 in
/-- Claim C5, counterexample: from a freshly initialized generator, with
every further allocation failing, emitting a string member whose 260-byte
key exceeds the whole buffer makes the internal key append fail (code -1
among the internal codes), yet the operation returns 0: a failing internal
append was followed by the operation returning success, because the source
discards the codes of json_gen_handle_name and the separator comma. -/
theorem C5_counterexample :
    (-1 : Int) ∈ (runOpCodes allocNever (json_gen_str_start false 0)
      (.objSetString name260 "x")).1 ∧
    (runOp allocNever (json_gen_str_start false 0)
      (.objSetString name260 "x")).1 = 0 := by
  constructor
  · decide
  · decide

/-- Claim C5 as amended: every emission operation returns exactly the code
of its final internal append (and ends in the same state the instrumented
run reaches), so a failure of the final append is always propagated; but
failures of earlier internal appends, the separator comma, the key
fragments, an opening quote or the string body, are not reported when the
final append succeeds. -/
theorem C5_amended_last_code (alloc : Nat → Bool) (s : json_gen_str_t)
    (op : GenOp) :
    (runOp alloc s op).1 = ((runOpCodes alloc s op).1).getLastD 0 ∧
    (runOp alloc s op).2 = (runOpCodes alloc s op).2 := by
  cases op with
  | startObject =>
      constructor <;>
        simp [runOp, runOpCodes, json_gen_start_object, handle_comma_codes_snd]
  | endObject =>
      constructor <;>
        simp [runOp, runOpCodes, json_gen_end_object]
  | startArray =>
      constructor <;>
        simp [runOp, runOpCodes, json_gen_start_array, handle_comma_codes_snd]
  | endArray =>
      constructor <;>
        simp [runOp, runOpCodes, json_gen_end_array]
  | pushObject name =>
      constructor <;>
        simp [runOp, runOpCodes, json_gen_push_object, handle_comma_codes_snd,
          handle_name_codes_snd]
  | popObject =>
      constructor <;>
        simp [runOp, runOpCodes, json_gen_pop_object]
  | pushObjectStr name object_str =>
      constructor <;>
        simp [runOp, runOpCodes, json_gen_push_object_str,
          handle_comma_codes_snd, handle_name_codes_snd]
  | pushArray name =>
      constructor <;>
        simp [runOp, runOpCodes, json_gen_push_array, handle_comma_codes_snd,
          handle_name_codes_snd]
  | popArray =>
      constructor <;>
        simp [runOp, runOpCodes, json_gen_pop_array]
  | pushArrayStr name array_str =>
      constructor <;>
        simp [runOp, runOpCodes, json_gen_push_array_str,
          handle_comma_codes_snd, handle_name_codes_snd]
  | objSetBool name val =>
      cases val <;> constructor <;>
        simp [runOp, runOpCodes, json_gen_obj_set_bool, json_gen_set_bool,
          handle_comma_codes_snd, handle_name_codes_snd]
  | arrSetBool val =>
      cases val <;> constructor <;>
        simp [runOp, runOpCodes, json_gen_arr_set_bool, json_gen_set_bool,
          handle_comma_codes_snd]
  | objSetInt name val =>
      constructor <;>
        simp [runOp, runOpCodes, json_gen_obj_set_int, json_gen_set_int,
          handle_comma_codes_snd, handle_name_codes_snd]
  | arrSetInt val =>
      constructor <;>
        simp [runOp, runOpCodes, json_gen_arr_set_int, json_gen_set_int,
          handle_comma_codes_snd]
  | objSetInt64 name val =>
      constructor <;>
        simp [runOp, runOpCodes, json_gen_obj_set_int64, json_gen_set_int64,
          handle_comma_codes_snd, handle_name_codes_snd]
  | arrSetInt64 val =>
      constructor <;>
        simp [runOp, runOpCodes, json_gen_arr_set_int64, json_gen_set_int64,
          handle_comma_codes_snd]
  | objSetFloat name val_str =>
      constructor <;>
        simp [runOp, runOpCodes, json_gen_obj_set_float, json_gen_set_float,
          handle_comma_codes_snd, handle_name_codes_snd]
  | arrSetFloat val_str =>
      constructor <;>
        simp [runOp, runOpCodes, json_gen_arr_set_float, json_gen_set_float,
          handle_comma_codes_snd]
  | objSetString name val =>
      constructor <;>
        simp [runOp, runOpCodes, json_gen_obj_set_string, json_gen_set_string,
          handle_comma_codes_snd, handle_name_codes_snd]
  | arrSetString val =>
      constructor <;>
        simp [runOp, runOpCodes, json_gen_arr_set_string, json_gen_set_string,
          handle_comma_codes_snd]
  | objSetNull name =>
      constructor <;>
        simp [runOp, runOpCodes, json_gen_obj_set_null, json_gen_set_null,
          handle_comma_codes_snd, handle_name_codes_snd]
  | arrSetNull =>
      constructor <;>
        simp [runOp, runOpCodes, json_gen_arr_set_null, json_gen_set_null,
          handle_comma_codes_snd]
  | objStartLongString name val =>
      constructor <;>
        simp [runOp, runOpCodes, json_gen_obj_start_long_string,
          json_gen_set_long_string, handle_comma_codes_snd,
          handle_name_codes_snd]
  | arrStartLongString val =>
      constructor <;>
        simp [runOp, runOpCodes, json_gen_arr_start_long_string,
          json_gen_set_long_string, handle_comma_codes_snd]
  | addToLongString val =>
      constructor <;>
        simp [runOp, runOpCodes, json_gen_add_to_long_string]
  | endLongString =>
      constructor <;>
        simp [runOp, runOpCodes, json_gen_end_long_string]

set_option maxRecDepth 8000 in
/-- Claim C6, counterexample: beginning a long string of 250 characters on a
fresh generator with every further allocation failing returns -1, yet the
separator flag, false before the operation, is true afterwards: the encoders
set the flag before attempting the append, so on failure it does not keep
its previous value. -/
theorem C6_counterexample :
    (json_gen_str_start false 0).comma_req = false ∧
    (json_gen_arr_start_long_string allocNever (json_gen_str_start false 0)
      val250).1 = -1 ∧
    (json_gen_arr_start_long_string allocNever (json_gen_str_start false 0)
      val250).2.comma_req = true := by
  refine ⟨rfl, ?_, ?_⟩
  · decide
  · decide

/-- Claim C6 as amended: every scalar encoder (bool, int, int64, float,
string, null, long-string begin) sets the separator flag to true before
attempting its append, so the flag is true afterwards on success and on
allocation failure alike; it is not left unchanged by a failing emission. -/
theorem C6_amended_flag_always_set (alloc : Nat → Bool) (s : json_gen_str_t) :
    (∀ val : Bool, (json_gen_set_bool alloc s val).2.comma_req = true) ∧
    (∀ val : Int, (json_gen_set_int alloc s val).2.comma_req = true) ∧
    (∀ val : Int, (json_gen_set_int64 alloc s val).2.comma_req = true) ∧
    (∀ val_str : String,
      (json_gen_set_float alloc s val_str).2.comma_req = true) ∧
    (∀ val : String, (json_gen_set_string alloc s val).2.comma_req = true) ∧
    (json_gen_set_null alloc s).2.comma_req = true ∧
    (∀ val : String,
      (json_gen_set_long_string alloc s val).2.comma_req = true) := by
  refine ⟨fun val => ?_, fun val => ?_, fun val => ?_, fun val_str => ?_,
    fun val => ?_, ?_, fun val => ?_⟩
  · cases val <;> simp [json_gen_set_bool]
  · simp [json_gen_set_int]
  · simp [json_gen_set_int64]
  · simp [json_gen_set_float]
  · simp [json_gen_set_string]
  · simp [json_gen_set_null]
  · simp [json_gen_set_long_string]

end JsonGenerator
